import Mathlib

/-
Verification of the academic email drafter core (src/app.py): the prompt
composer inside `generate_email_draft`, the OpenAI generation-client
wrapper around it, and the Streamlit trigger handler that manages the
`draft` / `error_message` session state.
-/

/-- Draft Request: the record of user-supplied fields consumed by one
generation attempt.  Field names follow the parameters of
`generate_email_draft(prompt, intent, recipient_name, paper_details,
other_info)` in src/app.py line 19. -/
structure DraftRequest where
  prompt : String
  intent : String
  recipient_name : String
  paper_details : String
  other_info : String
deriving DecidableEq

/-- The lines of the triple-quoted f-string `ai_prompt` built at
src/app.py lines 29-40, in order.  Python string truthiness
(`x if x else d`) is non-emptiness, rendered as `if x = "" then d else x`.
Each template line carries the 8-space indentation of the source; an
empty optional field leaves its template line as bare indentation,
because only the interpolated expression collapses to the empty string. -/
def composedLines (r : DraftRequest) : List String :=
  [ "",
    "        Draft a professional academic email with the following details:",
    "",
    "        Recipient Name: " ++
      (if r.recipient_name = "" then "Colleague" else r.recipient_name),
    "        Email Intent: " ++ r.intent,
    "        Core Message/Key Points: " ++ r.prompt,
    "        " ++
      (if r.paper_details = "" then ""
       else "Relevant Paper/Manuscript Details: " ++ r.paper_details),
    "        " ++
      (if r.other_info = "" then ""
       else "Other Specific Information: " ++ r.other_info),
    "",
    "        Please structure the email appropriately with a subject line, salutation, body, and closing.",
    "        Ensure the tone is professional and academic.",
    "        " ]

/-- The composed instruction string of src/app.py lines 29-40: the
triple-quoted f-string is exactly its lines joined by newlines. -/
def ai_prompt (r : DraftRequest) : String :=
  String.intercalate "\n" (composedLines r)

/-- One chat message turn, `{"role": ..., "content": ...}`. -/
structure ChatMessage where
  role : String
  content : String
deriving DecidableEq

/-- The request passed to `client.chat.completions.create` at src/app.py
lines 43-51. -/
structure ChatRequest where
  model : String
  messages : List ChatMessage
  max_tokens : Nat
  temperature : ℚ
deriving DecidableEq

/-- Outcome of the external call: either an exception raised while
performing the request (network fault, authentication failure,
provider-side error), or a response carrying the list of completion
choices, each reduced to its `message.content` text. -/
inductive CallOutcome where
  | raise (msg : String)
  | respond (choices : List String)
deriving DecidableEq

/-- A transport (real or fake): what the external service does with a
given request. -/
def Transport := ChatRequest → CallOutcome

/-- Module-level credential resolution (src/app.py lines 7-13): the
`client` global exists iff `os.environ.get('OPENAI_API_KEY')` returned a
present, non-empty string. -/
def client_configured : Option String → Bool
  | none => false
  | some k => !(k == "")

/-- The request built by `generate_email_draft` for a given Draft
Request (src/app.py lines 43-51): fixed model identifier, exactly two
message turns (the fixed system string and the composed instruction as
the sole user turn), `max_tokens=500`, `temperature=0.7`. -/
def chat_request (r : DraftRequest) : ChatRequest :=
  { model := "gpt-3.5-turbo",
    messages := [⟨"system", "You are a helpful academic email drafting assistant."⟩,
                 ⟨"user", ai_prompt r⟩],
    max_tokens := 500,
    temperature := 7/10 }

/-- src/app.py `generate_email_draft` (lines 19-55).  Returns the string
handed back to the caller together with the list of requests actually
sent over the network (empty or a singleton), so that call counts are
part of the model.  The `try/except Exception` is rendered by total
matching on the call outcome: an exception raised by the call, and the
`IndexError('list index out of range')` raised by `response.choices[0]`
on an empty choice list, are both formatted into the except-clause
message; the function never propagates a fault. -/
def generate_email_draft (configured : Bool) (transport : Transport)
    (prompt intent recipient_name paper_details other_info : String) :
    String × List ChatRequest :=
  if !configured then
    ("Error: OpenAI API not configured. Please set your API key as an environment variable.", [])
  else
    let req := chat_request ⟨prompt, intent, recipient_name, paper_details, other_info⟩
    match transport req with
    | .raise e =>
        ("Error generating email draft with OpenAI API: " ++ e, [req])
    | .respond [] =>
        ("Error generating email draft with OpenAI API: list index out of range", [req])
    | .respond (c :: _) => (c, [req])

/-- The two session-state slots of the app (src/app.py lines 71-74). -/
structure AppState where
  draft : String
  error_message : String
deriving DecidableEq

/-- Initial session state: both slots empty strings. -/
def initState : AppState := ⟨"", ""⟩

/-- The generate-button handler (src/app.py lines 138-156) as a state
transition on `AppState`, also returning the requests sent during the
action.  An empty `user_prompt` is rejected (error set, draft cleared)
before any call is made; otherwise the error slot is cleared and, when
the client is configured, `generate_email_draft` runs and its result —
draft text or error text alike — is stored in `draft`; when
unconfigured, the configuration message is stored in `error_message`
and `draft` is left unchanged. -/
def generate_step (configured : Bool) (transport : Transport)
    (user_prompt selected_intent recipient_name paper_info other_info : String)
    (s : AppState) : AppState × List ChatRequest :=
  if user_prompt = "" then
    ({ draft := "",
       error_message := "⚠️ Please enter a core prompt for your email in the sidebar." }, [])
  else if configured then
    let res := generate_email_draft configured transport
      user_prompt selected_intent recipient_name paper_info other_info
    ({ draft := res.1, error_message := "" }, res.2)
  else
    ({ s with
       error_message := "⚠️ OpenAI API not configured. Please set your API key as an environment variable." }, [])

/-- The widget inputs read by one trigger action. -/
structure TriggerInputs where
  user_prompt : String
  selected_intent : String
  recipient_name : String
  paper_info : String
  other_info : String

/-- A sequence of trigger actions applied from a starting state. -/
def runTriggers (configured : Bool) (transport : Transport) :
    List TriggerInputs → AppState → AppState
  | [], s => s
  | a :: rest, s =>
      runTriggers configured transport rest
        (generate_step configured transport a.user_prompt a.selected_intent
          a.recipient_name a.paper_info a.other_info s).1

/-- The interaction state never holds a non-empty draft and a non-empty
error message at the same time. -/
def stateConsistent (s : AppState) : Prop :=
  s.draft = "" ∨ s.error_message = ""

/-- Auxiliary invariant for the handler: the state is consistent, and
when the client is unconfigured the draft slot is still empty (no
generation ever ran). -/
def stateInv (configured : Bool) (s : AppState) : Prop :=
  stateConsistent s ∧ (configured = false → s.draft = "")

/-- C3: if the credential is absent at startup, every invocation of the
Generation Client returns the configuration-error string and sends zero
requests over the network. -/
theorem C3_missing_credential_no_call (transport : Transport)
    (prompt intent recipient_name paper_details other_info : String) :
    generate_email_draft (client_configured none) transport
        prompt intent recipient_name paper_details other_info =
      ("Error: OpenAI API not configured. Please set your API key as an environment variable.",
       []) := rfl

/-- C5: when `core_message` is empty at trigger time, the action is
rejected with the validation error before the Generation Client is
invoked — zero requests are sent — and the stored draft is cleared to
the empty string, whatever the previous state was. -/
theorem C5_empty_core_message_rejected (configured : Bool) (transport : Transport)
    (selected_intent recipient_name paper_info other_info : String) (s : AppState) :
    generate_step configured transport "" selected_intent recipient_name
        paper_info other_info s =
      ({ draft := "",
         error_message := "⚠️ Please enter a core prompt for your email in the sidebar." },
       []) := rfl

/-- C8: the Prompt Composer is pure and deterministic: two Draft
Requests with identical field values compose to byte-identical
instruction strings. -/
theorem C8_composer_deterministic (r1 r2 : DraftRequest)
    (h1 : r1.prompt = r2.prompt) (h2 : r1.intent = r2.intent)
    (h3 : r1.recipient_name = r2.recipient_name)
    (h4 : r1.paper_details = r2.paper_details)
    (h5 : r1.other_info = r2.other_info) :
    ai_prompt r1 = ai_prompt r2 := by
  rcases r1 with ⟨p1, i1, n1, d1, o1⟩
  rcases r2 with ⟨p2, i2, n2, d2, o2⟩
  simp only at h1 h2 h3 h4 h5
  subst h1 h2 h3 h4 h5
  rfl

/-- Witness for C8 at a concrete Draft Request. -/
theorem C8_composer_deterministic_witness :
    ai_prompt ⟨"m", "Inquiry", "A", "B", "C"⟩ =
      ai_prompt ⟨"m", "Inquiry", "A", "B", "C"⟩ :=
  C8_composer_deterministic ⟨"m", "Inquiry", "A", "B", "C"⟩
    ⟨"m", "Inquiry", "A", "B", "C"⟩ rfl rfl rfl rfl rfl

/-- C1 counterexample: with an empty `paper_details` and `other_info`
the composed instruction does NOT lose their lines — it has exactly as
many lines as when both fields are filled, and slots 6 and 7 are kept
as bare-indentation (whitespace-only) placeholder lines rather than
being omitted. -/
theorem C1_counterexample :
    (composedLines ⟨"m", "Inquiry", "", "", ""⟩).length =
      (composedLines ⟨"m", "Inquiry", "", "T", "S"⟩).length ∧
    (composedLines ⟨"m", "Inquiry", "", "", ""⟩)[6]? = some "        " ∧
    (composedLines ⟨"m", "Inquiry", "", "", ""⟩)[7]? = some "        " :=
  ⟨rfl, rfl, rfl⟩

/-- C1 (amended): an empty optional detail field contributes no labeled
line — no line of the composed instruction carries its fixed label, and
its template slot degrades to a whitespace-only placeholder line — while
a non-empty field yields its labeled line with the value verbatim at its
slot, and no other line carries that label. -/
theorem C1_optional_detail_lines (r : DraftRequest) :
    (r.paper_details = "" →
        (composedLines r)[6]? = some "        " ∧
        ∀ (i : Nat) (s : String), (composedLines r)[i]? ≠
          some ("        Relevant Paper/Manuscript Details: " ++ s)) ∧
    (r.paper_details ≠ "" →
        (composedLines r)[6]? =
          some ("        Relevant Paper/Manuscript Details: " ++ r.paper_details) ∧
        ∀ (i : Nat), i ≠ 6 → ∀ (s : String), (composedLines r)[i]? ≠
          some ("        Relevant Paper/Manuscript Details: " ++ s)) ∧
    (r.other_info = "" →
        (composedLines r)[7]? = some "        " ∧
        ∀ (i : Nat) (s : String), (composedLines r)[i]? ≠
          some ("        Other Specific Information: " ++ s)) ∧
    (r.other_info ≠ "" →
        (composedLines r)[7]? =
          some ("        Other Specific Information: " ++ r.other_info) ∧
        ∀ (i : Nat), i ≠ 7 → ∀ (s : String), (composedLines r)[i]? ≠
          some ("        Other Specific Information: " ++ s)) := by
  obtain ⟨p, it, rn, pd, oi⟩ := r
  refine ⟨?_, ?_, ?_, ?_⟩
  · intro hpd
    subst hpd
    refine ⟨rfl, ?_⟩
    intro i s h
    rcases i with _|_|_|_|_|_|_|_|_|_|_|_|i <;>
      simp only [composedLines, List.getElem?_cons_zero, List.getElem?_cons_succ,
        List.getElem?_nil, Option.some.injEq] at h
    all_goals first
      | exact Option.noConfusion h
      | (rw [String.ext_iff] at h; simp [String.data_append] at h; done)
      | (split at h <;> (rw [String.ext_iff] at h; simp [String.data_append] at h))
  · intro hpd
    constructor
    · simp only [composedLines, List.getElem?_cons_zero, List.getElem?_cons_succ,
        Option.some.injEq, if_neg hpd]
      rfl
    · intro i hi s h
      rcases i with _|_|_|_|_|_|_|_|_|_|_|_|i <;>
        simp only [composedLines, List.getElem?_cons_zero, List.getElem?_cons_succ,
          List.getElem?_nil, Option.some.injEq] at h
      all_goals first
        | exact hi rfl
        | exact Option.noConfusion h
        | (rw [String.ext_iff] at h; simp [String.data_append] at h; done)
        | (split at h <;> (rw [String.ext_iff] at h; simp [String.data_append] at h))
  · intro hoi
    subst hoi
    refine ⟨rfl, ?_⟩
    intro i s h
    rcases i with _|_|_|_|_|_|_|_|_|_|_|_|i <;>
      simp only [composedLines, List.getElem?_cons_zero, List.getElem?_cons_succ,
        List.getElem?_nil, Option.some.injEq] at h
    all_goals first
      | exact Option.noConfusion h
      | (rw [String.ext_iff] at h; simp [String.data_append] at h; done)
      | (split at h <;> (rw [String.ext_iff] at h; simp [String.data_append] at h))
  · intro hoi
    constructor
    · simp only [composedLines, List.getElem?_cons_zero, List.getElem?_cons_succ,
        Option.some.injEq, if_neg hoi]
      rfl
    · intro i hi s h
      rcases i with _|_|_|_|_|_|_|_|_|_|_|_|i <;>
        simp only [composedLines, List.getElem?_cons_zero, List.getElem?_cons_succ,
          List.getElem?_nil, Option.some.injEq] at h
      all_goals first
        | exact hi rfl
        | exact Option.noConfusion h
        | (rw [String.ext_iff] at h; simp [String.data_append] at h; done)
        | (split at h <;> (rw [String.ext_iff] at h; simp [String.data_append] at h))

/-- Witness for C1 (amended) at a concrete Draft Request with both
optional fields filled. -/
theorem C1_optional_detail_lines_witness :
    (composedLines ⟨"m", "Inquiry", "", "T", "S"⟩)[6]? =
      some ("        Relevant Paper/Manuscript Details: " ++ "T") ∧
    (composedLines ⟨"m", "Inquiry", "", "T", "S"⟩)[7]? =
      some ("        Other Specific Information: " ++ "S") :=
  ⟨((C1_optional_detail_lines ⟨"m", "Inquiry", "", "T", "S"⟩).2.1 (by decide)).1,
   ((C1_optional_detail_lines ⟨"m", "Inquiry", "", "T", "S"⟩).2.2.2 (by decide)).1⟩

set_option maxRecDepth 8192 in
/-- C2: the composed instruction carries the core message verbatim on
its fixed line, the intent label verbatim on its fixed line, and a
recipient line holding `recipient_name` when that field is non-empty
and the literal substitute "Colleague" when it is empty — the recipient
slot is never empty.  At the spec's concrete instance (core message
"Inquire about the neuroplasticity paper", intent "Inquiry", all
optional fields empty) the full composed string is spelled out. -/
theorem C2_core_fields_verbatim (r : DraftRequest) :
    (composedLines r)[3]? =
      some ("        Recipient Name: " ++
        (if r.recipient_name = "" then "Colleague" else r.recipient_name)) ∧
    (if r.recipient_name = "" then "Colleague" else r.recipient_name) ≠ "" ∧
    (composedLines r)[4]? = some ("        Email Intent: " ++ r.intent) ∧
    (composedLines r)[5]? = some ("        Core Message/Key Points: " ++ r.prompt) ∧
    ai_prompt ⟨"Inquire about the neuroplasticity paper", "Inquiry", "", "", ""⟩ =
      "\n        Draft a professional academic email with the following details:\n\n        Recipient Name: Colleague\n        Email Intent: Inquiry\n        Core Message/Key Points: Inquire about the neuroplasticity paper\n        \n        \n\n        Please structure the email appropriately with a subject line, salutation, body, and closing.\n        Ensure the tone is professional and academic.\n        " := by
  refine ⟨rfl, ?_, rfl, rfl, rfl⟩
  split
  · decide
  · assumption

/-- C9: field presence is decided by Python string truthiness, not a
trimmed-emptiness test: a whitespace-only `recipient_name` is embedded
verbatim instead of "Colleague", a whitespace-only `paper_details`
still produces its labeled line, and a whitespace-only `core_message`
passes validation and triggers a generation attempt (a request is
sent and its completion is stored as the draft). -/
theorem C9_truthiness_not_trimming :
    (composedLines ⟨"m", "Inquiry", " ", "", ""⟩)[3]? =
      some ("        Recipient Name: " ++ " ") ∧
    ("        Recipient Name: " ++ " ") ≠ ("        Recipient Name: " ++ "Colleague") ∧
    (composedLines ⟨"m", "Inquiry", "", " ", ""⟩)[6]? =
      some ("        Relevant Paper/Manuscript Details: " ++ " ") ∧
    generate_step true (fun _ => CallOutcome.respond ["ok"]) " " "Inquiry" "" "" "" initState =
      ({ draft := "ok", error_message := "" },
       [chat_request ⟨" ", "Inquiry", "", "", ""⟩]) :=
  ⟨rfl, by decide, rfl, rfl⟩

/-- C4: any fault of the external call is converted at the Generation
Client boundary into a human-readable error string handed to the caller
— `generate_email_draft` is total with result type `String`, so no
fault escapes as an exception: an exception raised by the transport is
formatted with its message, and an empty choice list (malformed/empty
response) is formatted as the caught `IndexError`. -/
theorem C4_fault_to_error_string (transport : Transport)
    (prompt intent recipient_name paper_details other_info : String) :
    (∀ e, transport (chat_request ⟨prompt, intent, recipient_name, paper_details, other_info⟩) =
        CallOutcome.raise e →
      generate_email_draft true transport prompt intent recipient_name paper_details other_info =
        ("Error generating email draft with OpenAI API: " ++ e,
         [chat_request ⟨prompt, intent, recipient_name, paper_details, other_info⟩])) ∧
    (transport (chat_request ⟨prompt, intent, recipient_name, paper_details, other_info⟩) =
        CallOutcome.respond [] →
      generate_email_draft true transport prompt intent recipient_name paper_details other_info =
        ("Error generating email draft with OpenAI API: list index out of range",
         [chat_request ⟨prompt, intent, recipient_name, paper_details, other_info⟩])) := by
  constructor
  · intro e he
    simp [generate_email_draft, he]
  · intro he
    simp [generate_email_draft, he]

/-- Witness for C4 with a concrete faulting transport. -/
theorem C4_fault_to_error_string_witness :
    generate_email_draft true (fun _ => CallOutcome.raise "boom") "m" "Inquiry" "" "" "" =
      ("Error generating email draft with OpenAI API: " ++ "boom",
       [chat_request ⟨"m", "Inquiry", "", "", ""⟩]) :=
  (C4_fault_to_error_string (fun _ => CallOutcome.raise "boom") "m" "Inquiry" "" "" "").1
    "boom" rfl

/-- C7: every request the Generation Client sends has exactly two
message turns — the fixed system string and the composed instruction as
the sole user turn — the fixed model identifier, `max_tokens = 500`,
`temperature = 0.7`; exactly one such request is sent per invocation,
and on success the text of the first completion choice is returned
unmodified. -/
theorem C7_request_shape (transport : Transport)
    (prompt intent recipient_name paper_details other_info : String) :
    (generate_email_draft true transport prompt intent recipient_name paper_details other_info).2 =
      [chat_request ⟨prompt, intent, recipient_name, paper_details, other_info⟩] ∧
    (chat_request ⟨prompt, intent, recipient_name, paper_details, other_info⟩).messages =
      [⟨"system", "You are a helpful academic email drafting assistant."⟩,
       ⟨"user", ai_prompt ⟨prompt, intent, recipient_name, paper_details, other_info⟩⟩] ∧
    (chat_request ⟨prompt, intent, recipient_name, paper_details, other_info⟩).model =
      "gpt-3.5-turbo" ∧
    (chat_request ⟨prompt, intent, recipient_name, paper_details, other_info⟩).max_tokens = 500 ∧
    (chat_request ⟨prompt, intent, recipient_name, paper_details, other_info⟩).temperature = 7/10 ∧
    (∀ c cs, transport (chat_request ⟨prompt, intent, recipient_name, paper_details, other_info⟩) =
        CallOutcome.respond (c :: cs) →
      (generate_email_draft true transport prompt intent recipient_name paper_details other_info).1 =
        c) := by
  refine ⟨?_, rfl, rfl, rfl, rfl, ?_⟩
  · cases h : transport (chat_request ⟨prompt, intent, recipient_name, paper_details, other_info⟩) with
    | raise e => simp [generate_email_draft, h]
    | respond cs => cases cs <;> simp [generate_email_draft, h]
  · intro c cs h
    simp [generate_email_draft, h]

/-- Witness for C7 with a concrete succeeding transport. -/
theorem C7_request_shape_witness :
    (generate_email_draft true (fun _ => CallOutcome.respond ["draft text"])
        "m" "Inquiry" "" "" "").1 = "draft text" :=
  ((C7_request_shape (fun _ => CallOutcome.respond ["draft text"]) "m" "Inquiry" "" "" "").2.2.2.2.2)
    "draft text" [] rfl

/-- C10: when the external call fails after a valid (non-empty) trigger,
the descriptive error string returned by `generate_email_draft` is
stored in the draft slot while the dedicated error-message slot is left
empty — generation failures travel through the draft channel. -/
theorem C10_failure_stored_in_draft_channel (transport : Transport)
    (user_prompt selected_intent recipient_name paper_info other_info e : String)
    (s : AppState) (hp : user_prompt ≠ "")
    (hfail : transport (chat_request
        ⟨user_prompt, selected_intent, recipient_name, paper_info, other_info⟩) =
      CallOutcome.raise e) :
    generate_step true transport user_prompt selected_intent recipient_name paper_info
        other_info s =
      ({ draft := "Error generating email draft with OpenAI API: " ++ e, error_message := "" },
       [chat_request ⟨user_prompt, selected_intent, recipient_name, paper_info, other_info⟩]) := by
  simp [generate_step, hp, generate_email_draft, hfail]

/-- Witness for C10 with a concrete faulting transport. -/
theorem C10_failure_stored_in_draft_channel_witness :
    generate_step true (fun _ => CallOutcome.raise "boom") "m" "Inquiry" "" "" "" initState =
      ({ draft := "Error generating email draft with OpenAI API: " ++ "boom",
         error_message := "" },
       [chat_request ⟨"m", "Inquiry", "", "", ""⟩]) :=
  C10_failure_stored_in_draft_channel (fun _ => CallOutcome.raise "boom")
    "m" "Inquiry" "" "" "" "boom" initState (by decide) rfl

/-- Helper: one trigger action preserves the handler invariant. -/
theorem generate_step_preserves_inv (configured : Bool) (transport : Transport)
    (user_prompt selected_intent recipient_name paper_info other_info : String)
    (s : AppState) (h : stateInv configured s) :
    stateInv configured (generate_step configured transport user_prompt
      selected_intent recipient_name paper_info other_info s).1 := by
  obtain ⟨hcons, hunconf⟩ := h
  unfold generate_step
  split
  · exact ⟨Or.inl rfl, fun _ => rfl⟩
  · split
    · next hc =>
        refine ⟨Or.inr rfl, fun hfalse => ?_⟩
        rw [hfalse] at hc
        simp at hc
    · next hc =>
        have hcf : configured = false := by
          cases configured
          · rfl
          · exact absurd rfl hc
        exact ⟨Or.inl (hunconf hcf), fun _ => hunconf hcf⟩

/-- Helper: the invariant holds along any sequence of trigger actions. -/
theorem runTriggers_preserves_inv (configured : Bool) (transport : Transport)
    (actions : List TriggerInputs) (s : AppState) (h : stateInv configured s) :
    stateInv configured (runTriggers configured transport actions s) := by
  induction actions generalizing s with
  | nil => exact h
  | cons a rest ih =>
      exact ih _ (generate_step_preserves_inv configured transport a.user_prompt
        a.selected_intent a.recipient_name a.paper_info a.other_info s h)

/-- C6: after any sequence of trigger actions from the initial state,
the interaction state never holds a non-empty draft and a non-empty
error message at the same time; and whenever a trigger action attempts
generation (it sends at least one request), the previous error state
has been cleared — the resulting error slot is the empty string. -/
theorem C6_exclusive_channels_and_error_clearing (configured : Bool)
    (transport : Transport) (actions : List TriggerInputs) :
    stateConsistent (runTriggers configured transport actions initState) ∧
    (∀ (inputs : TriggerInputs) (s : AppState),
      (generate_step configured transport inputs.user_prompt inputs.selected_intent
        inputs.recipient_name inputs.paper_info inputs.other_info s).2 ≠ [] →
      (generate_step configured transport inputs.user_prompt inputs.selected_intent
        inputs.recipient_name inputs.paper_info inputs.other_info s).1.error_message = "") := by
  constructor
  · exact (runTriggers_preserves_inv configured transport actions initState
      ⟨Or.inl rfl, fun _ => rfl⟩).1
  · intro inputs s hcalls
    by_cases hp : inputs.user_prompt = ""
    · simp [generate_step, hp] at hcalls
    · by_cases hc : configured = true
      · simp [generate_step, hp, hc]
      · simp [generate_step, hp, hc] at hcalls

/-- Witness for C6: a concrete configured trigger that sends a request
ends with an empty error slot. -/
theorem C6_exclusive_channels_and_error_clearing_witness :
    (generate_step true (fun _ => CallOutcome.respond ["ok"]) "m" "Inquiry" "" "" ""
      initState).1.error_message = "" :=
  (C6_exclusive_channels_and_error_clearing true (fun _ => CallOutcome.respond ["ok"]) []).2
    ⟨"m", "Inquiry", "", "", ""⟩ initState
    (by simp [generate_step, generate_email_draft])
